import Mathlib

/-
  Shallow embedding of the voyageai client library (cyrup-ai/voyageai).

  Conventions of the embedding:
  * Rust floating-point scores (`f64` relevance scores, `f32` embedding
    coordinates) are modelled as rationals; the `cosine_similarity` helper,
    which takes a square root, is modelled over the reals.
  * A Rust panic is modelled as `none` in an `Option`-valued function.
  * The network transport (`reqwest` post + status dispatch + JSON parse) is
    an external collaborator; a call's outcome is passed in as an
    `Except VoyageError _` value, exactly the shape `perform_rerank` /
    `create_embedding` reduce the HTTP response to.
  * A tokio background task together with its channel is modelled by the
    list of items the task pushes (the consumer is assumed to keep reading,
    so a `tx.send` never fails); a oneshot-backed future is modelled by the
    value the task sends, with `none` when the task panicked before sending.
-/

namespace VoyageAI

/-- Error taxonomy of the library (`errors.rs`, re-exported as `VoyageError`;
the file is not among the provided sources, so the variants are modelled from
the spec's taxonomy in section 7 and the constructors used by the client code:
`Unauthorized`, `Forbidden(body)`, `ApiError(status, body)`,
`JsonError(detail)`, `TokenizerError(detail)`, `Other(message)`). -/
inductive VoyageError where
  | Unauthorized : VoyageError
  | Forbidden : String → VoyageError
  | ApiError : Nat → String → VoyageError
  | JsonError : String → VoyageError
  | TokenizerError : String → VoyageError
  | Other : String → VoyageError
  deriving DecidableEq, Repr

/-- One entry of the rerank response body: the server-returned index into the
request's document list and its relevance score (`models/rerank.rs`;
spec section 6: `{index: integer, relevanceScore: float}`). -/
structure RerankResult where
  index : Nat
  relevance_score : ℚ
  deriving DecidableEq, Repr

/-- Usage statistics of a rerank response (`usage.total_tokens`). -/
structure RerankUsage where
  total_tokens : Nat
  deriving DecidableEq, Repr

/-- The parsed rerank response (`models/rerank.rs`): the ranked results in
server order plus usage statistics. -/
structure RerankResponse where
  data : List RerankResult
  usage : RerankUsage
  deriving DecidableEq, Repr

/-- A single document with its similarity score
(`client/rerank_client.rs`, struct `DocumentSimilarity`). -/
structure DocumentSimilarity where
  rank : Nat
  similarity : ℚ
  document : String
  deriving DecidableEq, Repr

/-- Rerank model selector (`models/rerank.rs`; the concrete variants are out
of scope for the spec, only a default is needed). -/
inductive RerankModel where
  | rerank2 : RerankModel
  | rerankLite1 : RerankModel
  deriving DecidableEq, Repr

/-- Validation failure of a rerank request build (spec section 7:
"ValidationError (empty query or empty document list supplied to a rerank
build)"; the test suite checks `RerankRequest::new("", vec![], ..)` is
an error). -/
inductive ValidationError where
  | EmptyQuery : ValidationError
  | EmptyDocuments : ValidationError
  deriving DecidableEq, Repr

/-- A validated rerank request (`models/rerank.rs`). -/
structure RerankRequest where
  query : String
  documents : List String
  model : RerankModel
  top_k : Option Nat
  deriving DecidableEq, Repr

/-- Modelled from the spec: `RerankRequest::new` lives in `models/rerank.rs`,
which is not among the provided sources. Spec section 7 defines the
validation failure as "empty query or empty document list supplied to a
rerank build", and `tests/test_rerank.rs` checks that
`RerankRequest::new("".to_string(), vec![], ..)` returns `Err`. -/
def RerankRequest.new (query : String) (documents : List String)
    (model : RerankModel) (top_k : Option Nat) :
    Except ValidationError RerankRequest :=
  if query = "" then Except.error ValidationError.EmptyQuery
  else if documents = [] then Except.error ValidationError.EmptyDocuments
  else Except.ok ⟨query, documents, model, top_k⟩

/-- Builder state for rerank requests
(`client/rerank_client.rs`, struct `RerankRequestBuilder`). -/
structure RerankRequestBuilder where
  query : Option String
  documents : List String
  model : RerankModel
  top_k : Option Nat
  deriving DecidableEq, Repr

/-- The builder's `build` (`client/rerank_client.rs` lines 70 to 81): a
missing query is reported as a validation error (the source tags it
`EmptyDocuments`), then `RerankRequest::new` validates the rest. -/
def RerankRequestBuilder.build (b : RerankRequestBuilder) :
    Except ValidationError RerankRequest :=
  match b.query with
  | none => Except.error ValidationError.EmptyDocuments
  | some q => RerankRequest.new q b.documents b.model b.top_k

/-- The client's `create_request` (`client/rerank_client.rs` lines 166 to
173): builds a `RerankRequest` with the default model and no `top_k`, and
PANICS (`unwrap_or_else(|_| panic!(..))`) when validation fails; the panic
is modelled as `none`. -/
def createRequest (query : String) (documents : List String) :
    Option RerankRequest :=
  match RerankRequest.new query documents RerankModel.rerank2 none with
  | Except.ok r => some r
  | Except.error _ => none

/-- The emission loop of `find_similar_documents`'s background task
(`client/rerank_client.rs` lines 254 to 265): iterate the server's results
in order, with `rank` the enumeration position, `similarity` the server's
relevance score, and `document` obtained by indexing the caller's original
list with the server-returned index (`input_docs[result.index]`, which
panics when the index is out of bounds — modelled by the Boolean flag).
Returns the items pushed to the channel before any panic, and whether the
task panicked. -/
def emitRanked (inputDocs : List String) :
    List RerankResult → Nat → List DocumentSimilarity × Bool
  | [], _ => ([], false)
  | r :: rest, rank =>
    match inputDocs.get? r.index with
    | none => ([], true)
    | some doc =>
      let t := emitRanked inputDocs rest (rank + 1)
      (⟨rank, r.relevance_score, doc⟩ :: t.1, t.2)

/-- The body of the task spawned by `find_similar_documents`
(`client/rerank_client.rs` lines 251 to 272): on transport success emit the
ranked items, on failure push nothing (the error is only logged). -/
def findSimilarTask (inputDocs : List String)
    (transport : Except VoyageError RerankResponse) :
    List DocumentSimilarity × Bool :=
  match transport with
  | Except.ok resp => emitRanked inputDocs resp.data 0
  | Except.error _ => ([], false)

/-- `find_similar_documents` (`client/rerank_client.rs` lines 245 to 275):
`create_request` runs on the caller's thread before the task is spawned and
panics on validation failure (`none`, no transport activity); otherwise the
spawned task produces the emitted stream. -/
def findSimilarDocuments (query : String) (documents : List String)
    (transport : Except VoyageError RerankResponse) :
    Option (List DocumentSimilarity × Bool) :=
  match createRequest query documents with
  | none => none
  | some _ => some (findSimilarTask documents transport)

/-- The body of the task spawned by `most_similar_document`
(`client/rerank_client.rs` lines 283 to 301): on success take the first
ranked result (rank 0), resolving its index against the caller's original
list (`input_docs[best_match.index]`, panics out of bounds — `none`); an
empty result list becomes a "No matching documents found" error; a
transport error is forwarded as the task's result. -/
def mostSimilarTask (inputDocs : List String)
    (transport : Except VoyageError RerankResponse) :
    Option (Except VoyageError DocumentSimilarity) :=
  match transport with
  | Except.ok resp =>
    match resp.data with
    | [] => some (Except.error (VoyageError.Other "No matching documents found"))
    | best :: _ =>
      match inputDocs.get? best.index with
      | none => none
      | some doc => some (Except.ok ⟨0, best.relevance_score, doc⟩)
  | Except.error e => some (Except.error e)

/-- `AsyncDocumentSimilarity::poll` (`client/rerank_client.rs` lines 109 to
115): a value sent by the task is returned as-is; if the task died without
sending (oneshot sender dropped, e.g. after a panic) the future resolves to
the "Similarity task canceled" error. -/
def asyncSimilarityPoll
    (taskResult : Option (Except VoyageError DocumentSimilarity)) :
    Except VoyageError DocumentSimilarity :=
  match taskResult with
  | some r => r
  | none => Except.error (VoyageError.Other "Similarity task canceled")

/-- `most_similar_document` (`client/rerank_client.rs` lines 277 to 304):
`create_request` panics on the caller's thread for invalid input (`none`);
otherwise the awaited future resolves to the spawned task's result as seen
through `AsyncDocumentSimilarity::poll`. -/
def mostSimilarDocument (query : String) (documents : List String)
    (transport : Except VoyageError RerankResponse) :
    Option (Except VoyageError DocumentSimilarity) :=
  match createRequest query documents with
  | none => none
  | some _ => some (asyncSimilarityPoll (mostSimilarTask documents transport))

/-- The spec's description of the stream emitted for a successful rerank
call (spec sections 3 and 4.3): ranks assigned sequentially from the given
starting rank, similarity equal to the server's relevance score, and
document equal to the caller's original entry at the server-returned
index. Stated with `getD` (default `""`); under the in-bounds hypothesis
this is the actual entry. -/
def specRankedStream (docs : List String) : Nat → List RerankResult → List DocumentSimilarity
  | _, [] => []
  | k, r :: rs =>
    ⟨k, r.relevance_score, docs.getD r.index ""⟩ :: specRankedStream docs (k + 1) rs

/-- A Rust `std::time::Duration`: whole seconds plus a sub-second nanosecond
part (`nanos < 10^9` holds for values built by the standard library;
`as_secs()` is the `secs` field). -/
structure Duration where
  secs : Nat
  nanos : Nat
  deriving DecidableEq, Repr

/-- The zero duration. -/
def Duration.zero : Duration := ⟨0, 0⟩

/-- The duration actually slept by `perform_rerank` before issuing the
transport call (`client/rerank_client.rs` lines 184 to 194): the full wait
is slept when `wait_time.as_secs() > 0`, and nothing is slept otherwise. -/
def performRerankSleep (wait : Duration) : Duration :=
  if wait.secs > 0 then wait else Duration.zero

/-- The duration actually slept by `Client::create_embedding` before issuing
the transport call (`client/embeddings_client.rs` lines 132 to 142): the
same guard, sleep only when `wait_time.as_secs() > 0`. -/
def createEmbeddingSleep (wait : Duration) : Duration :=
  if wait.secs > 0 then wait else Duration.zero

/-- One embedding entry of the embeddings response
(`models/embeddings.rs`, struct `EmbeddingData`); `f32` coordinates are
modelled as rationals. -/
structure EmbeddingData where
  object : String
  embedding : List ℚ
  index : Nat
  deriving DecidableEq, Repr

/-- Usage statistics of an embeddings response. -/
structure EmbeddingsUsage where
  total_tokens : Nat
  deriving DecidableEq, Repr

/-- The parsed embeddings response (`models/embeddings.rs`,
struct `EmbeddingsResponse`). -/
structure EmbeddingsResponse where
  object : String
  data : List EmbeddingData
  model : String
  usage : EmbeddingsUsage
  deriving DecidableEq, Repr

/-- The record of one `create_embedding` style call: whether the rate
limiter was consulted, whether the transport call was issued, and the
call's result. -/
structure CallTrace (α : Type) where
  rateChecked : Bool
  transportInvoked : Bool
  result : α
  deriving DecidableEq, Repr

/-- The empty-data substitution in `Client::create_embedding`
(`client/embeddings_client.rs` lines 161 to 172): an OK response whose
`data` list is empty is replaced by one with a single embedding `[0.0]` at
index 0; other fields are kept. -/
def substituteEmpty (resp : EmbeddingsResponse) : EmbeddingsResponse :=
  if resp.data = [] then
    ⟨resp.object, [⟨"embedding", [0], 0⟩], resp.model, resp.usage⟩
  else resp

/-- `Client::create_embedding` (`client/embeddings_client.rs` lines 122 to
193): the rate limiter is always checked and the transport call always
issued; an OK response goes through the empty-data substitution, an error
outcome (unauthorized / forbidden / other status / parse failure,
pre-reduced into `VoyageError` by the transport model) is returned as-is. -/
def createEmbedding (transport : Except VoyageError EmbeddingsResponse) :
    CallTrace (Except VoyageError EmbeddingsResponse) :=
  ⟨true, true,
    match transport with
    | Except.ok resp => Except.ok (substituteEmpty resp)
    | Except.error e => Except.error e⟩

namespace Client

/-- `Client::embed` (`client/embeddings_client.rs` lines 26 to 37): one
single-input call, then `response.data[0].embedding` (the indexing panics on
an empty `data` list — modelled as `none`). -/
def embed (transport : Except VoyageError EmbeddingsResponse) :
    Option (Except VoyageError (List ℚ)) :=
  match (createEmbedding transport).result with
  | Except.error e => some (Except.error e)
  | Except.ok resp =>
    match resp.data.head? with
    | none => none
    | some d => some (Except.ok d.embedding)

/-- `Client::embed_batch` (`client/embeddings_client.rs` lines 93 to 107):
an empty input list short-circuits to `Ok(vec![])` before the rate check
and the transport call; otherwise one multi-input call is made and the
response's embeddings are collected in response order. -/
def embed_batch (texts : List String)
    (transport : Except VoyageError EmbeddingsResponse) :
    CallTrace (Except VoyageError (List (List ℚ))) :=
  if texts = [] then ⟨false, false, Except.ok []⟩
  else
    let c := createEmbedding transport
    ⟨c.rateChecked, c.transportInvoked,
      match c.result with
      | Except.ok resp => Except.ok (resp.data.map (fun d => d.embedding))
      | Except.error e => Except.error e⟩

end Client

namespace Embedder

/-- The `Embedder` impl of `embed_batch` on `VoyageAiClient`
(`traits/llm.rs` lines 104 to 130): no empty-input check — the spawned task
always builds a `Multiple(texts)` request and calls `create_embedding`,
then collects the embeddings in response order. -/
def embed_batch (texts : List String)
    (transport : Except VoyageError EmbeddingsResponse) :
    CallTrace (Except VoyageError (List (List ℚ))) :=
  let c := createEmbedding transport
  ⟨c.rateChecked, c.transportInvoked,
    match c.result with
    | Except.ok resp => Except.ok (resp.data.map (fun d => d.embedding))
    | Except.error e => Except.error e⟩

/-- Tokio's bounded mpsc channel constructor: creating a channel with zero
capacity violates the library's `buffer > 0` assertion and panics
(modelled as `none`); otherwise the channel has the given capacity. -/
def mpscChannel (capacity : Nat) : Option Nat :=
  if capacity = 0 then none else some capacity

/-- The `Embedder` impl of `embed_stream` on `VoyageAiClient`
(`traits/llm.rs` lines 132 to 162): a bounded channel of capacity
`texts.len()` is created on the caller's thread (panics for an empty input
list), then the task pushes each embedding of the single response in
response order; on a transport error nothing is pushed and the stream ends
empty. Returns the channel capacity and the pushed items, `none` on
panic. -/
def embed_stream (texts : List String)
    (transport : Except VoyageError EmbeddingsResponse) :
    Option (Nat × List (List ℚ)) :=
  match mpscChannel texts.length with
  | none => none
  | some cap =>
    some (cap,
      match (createEmbedding transport).result with
      | Except.ok resp => resp.data.map (fun d => d.embedding)
      | Except.error _ => [])

end Embedder

/-- The dot product of `cosine_similarity` (`lib.rs` line 34):
`a.iter().zip(b.iter()).map(|(x, y)| x * y).sum()`; `f32` modelled as ℝ. -/
def dotProduct (a b : List ℝ) : ℝ :=
  ((a.zip b).map (fun p => p.1 * p.2)).sum

/-- The magnitude of `cosine_similarity` (`lib.rs` lines 35 to 36):
square root of the sum of squares. -/
noncomputable def magnitude (a : List ℝ) : ℝ :=
  Real.sqrt ((a.map (fun x => x * x)).sum)

/-- `cosine_similarity` (`lib.rs` lines 30 to 41): returns 0 for empty or
mismatched-length inputs, and 0 when either magnitude is zero; otherwise
the dot product divided by the product of the magnitudes. -/
noncomputable def cosine_similarity (a b : List ℝ) : ℝ :=
  if a = [] ∨ b = [] ∨ a.length ≠ b.length then 0
  else
    if magnitude a = 0 ∨ magnitude b = 0 then 0
    else dotProduct a b / (magnitude a * magnitude b)

/-! Helper lemmas shared by the claim theorems. -/

theorem getElem?_of_lt (l : List String) (n : Nat) (h : n < l.length) :
    l[n]? = some (l.getD n "") := by
  rw [List.getD_eq_getElem?_getD, List.getElem?_eq_getElem h]
  rfl

theorem getElem?_of_ge (l : List String) (n : Nat) (h : ¬ n < l.length) :
    l[n]? = none :=
  List.getElem?_eq_none (by omega)

theorem emitRanked_cons (docs : List String) (r : RerankResult)
    (rest : List RerankResult) (k : Nat) :
    emitRanked docs (r :: rest) k =
      match docs.get? r.index with
      | none => ([], true)
      | some doc =>
        (⟨k, r.relevance_score, doc⟩ :: (emitRanked docs rest (k + 1)).1,
          (emitRanked docs rest (k + 1)).2) := rfl

theorem emitRanked_in_bounds (docs : List String) (rs : List RerankResult) (k : Nat)
    (h : ∀ r ∈ rs, r.index < docs.length) :
    emitRanked docs rs k = (specRankedStream docs k rs, false) := by
  induction rs generalizing k with
  | nil => rfl
  | cons r rest ih =>
    have hr : r.index < docs.length := h r (by simp)
    have hrest : ∀ x ∈ rest, x.index < docs.length := fun x hx => h x (by simp [hx])
    rw [emitRanked_cons, List.get?_eq_getElem?, getElem?_of_lt docs r.index hr,
      ih (k + 1) hrest, specRankedStream]

theorem emitRanked_oob (docs : List String) (rs : List RerankResult) (k : Nat)
    (h : ∃ r ∈ rs, docs.length ≤ r.index) :
    (emitRanked docs rs k).2 = true ∧ (emitRanked docs rs k).1.length < rs.length := by
  induction rs generalizing k with
  | nil => simp at h
  | cons r rest ih =>
    by_cases hr : r.index < docs.length
    · have hrest : ∃ x ∈ rest, docs.length ≤ x.index := by
        rcases h with ⟨x, hx, hxi⟩
        rcases List.mem_cons.mp hx with rfl | hx
        · omega
        · exact ⟨x, hx, hxi⟩
      have h2 := ih (k + 1) hrest
      rw [emitRanked_cons, List.get?_eq_getElem?, getElem?_of_lt docs r.index hr]
      refine ⟨h2.1, ?_⟩
      have := h2.2
      simp only [List.length_cons]
      omega
    · rw [emitRanked_cons, List.get?_eq_getElem?, getElem?_of_ge docs r.index hr]
      simp

theorem createRequest_valid (query : String) (docs : List String)
    (hq : query ≠ "") (hd : docs ≠ []) :
    createRequest query docs = some ⟨query, docs, RerankModel.rerank2, none⟩ := by
  simp [createRequest, RerankRequest.new, hq, hd]

/-! Claim theorems. -/

/-- C1: for a successful rerank transport call whose result indices are all
in bounds, the stream emitted by `find_similar_documents` is exactly the
server's ranked results in the order received, with rank assigned
sequentially from 0, similarity equal to the server's relevance score, and
document equal to the caller's original list entry at the server-returned
index (the spec-side description `specRankedStream`), with no panic. -/
theorem rerank_stream_correspondence (query : String) (docs : List String)
    (resp : RerankResponse) (hq : query ≠ "") (hd : docs ≠ [])
    (hidx : ∀ r ∈ resp.data, r.index < docs.length) :
    findSimilarDocuments query docs (Except.ok resp) =
      some (specRankedStream docs 0 resp.data, false) := by
  rw [findSimilarDocuments, createRequest_valid query docs hq hd]
  rw [findSimilarTask, emitRanked_in_bounds docs resp.data 0 hidx]

/-- C1 witness: for documents `["A","B","C"]` and server indices `[2,0,1]`
with scores `[0.9,0.5,0.2]`, the stream yields `{0,"C",0.9}`, `{1,"A",0.5}`,
`{2,"B",0.2}` in that order. -/
theorem rerank_stream_correspondence_witness :
    findSimilarDocuments "query" ["A", "B", "C"]
        (Except.ok ⟨[⟨2, 9/10⟩, ⟨0, 5/10⟩, ⟨1, 2/10⟩], ⟨42⟩⟩) =
      some ([⟨0, 9/10, "C"⟩, ⟨1, 5/10, "A"⟩, ⟨2, 2/10, "B"⟩], false) := by
  rw [rerank_stream_correspondence "query" ["A", "B", "C"]
    ⟨[⟨2, 9/10⟩, ⟨0, 5/10⟩, ⟨1, 2/10⟩], ⟨42⟩⟩
    (by decide) (by decide) (by decide)]
  rfl

/-- C2 counterexample: called with an empty query (or an empty document
list), `find_similar_documents` and `most_similar_document` PANIC in
`create_request` (modelled as `none`) instead of reporting the validation
failure to the caller. -/
theorem rerank_validation_counterexample :
    findSimilarDocuments "" ["Paris is the capital of France."]
        (Except.ok ⟨[], ⟨0⟩⟩) = none ∧
    mostSimilarDocument "What is the capital of France?" []
        (Except.ok ⟨[], ⟨0⟩⟩) = none := by
  exact ⟨rfl, rfl⟩

/-- C2 (amended): validation failures (empty query or empty document list)
are detected before any network activity — the outcome is independent of the
transport — and `RerankRequestBuilder::build` and `RerankRequest::new`
report them as errors; but `find_similar_documents` and
`most_similar_document` panic (via `create_request`'s unwrap) instead of
reporting the failure to the caller. -/
theorem rerank_validation_failfast (query : String) (docs : List String)
    (h : query = "" ∨ docs = []) :
    (∀ tr, findSimilarDocuments query docs tr = none) ∧
    (∀ tr, mostSimilarDocument query docs tr = none) ∧
    (∀ m k, ∃ e, RerankRequest.new query docs m k = Except.error e) ∧
    (∀ b : RerankRequestBuilder, b.query = some query → b.documents = docs →
      ∃ e, b.build = Except.error e) := by
  have hnew : ∀ m k, ∃ e, RerankRequest.new query docs m k = Except.error e := by
    intro m k
    rcases h with h | h
    · exact ⟨ValidationError.EmptyQuery, by simp [RerankRequest.new, h]⟩
    · by_cases hq : query = ""
      · exact ⟨ValidationError.EmptyQuery, by simp [RerankRequest.new, hq]⟩
      · exact ⟨ValidationError.EmptyDocuments, by simp [RerankRequest.new, hq, h]⟩
  have hcr : createRequest query docs = none := by
    rcases hnew RerankModel.rerank2 none with ⟨e, he⟩
    simp [createRequest, he]
  refine ⟨fun tr => by simp [findSimilarDocuments, hcr],
          fun tr => by simp [mostSimilarDocument, hcr],
          hnew, fun b hbq hbd => ?_⟩
  rcases hnew b.model b.top_k with ⟨e, he⟩
  refine ⟨e, ?_⟩
  rw [RerankRequestBuilder.build, hbq]
  show RerankRequest.new query b.documents b.model b.top_k = Except.error e
  rw [hbd]
  exact he

/-- C2 witness: with an empty query, the stream call panics whatever the
transport would answer, and the builder reports an error. -/
theorem rerank_validation_failfast_witness :
    findSimilarDocuments "" ["d"] (Except.ok ⟨[⟨0, 1/2⟩], ⟨7⟩⟩) = none ∧
    mostSimilarDocument "" ["d"] (Except.ok ⟨[⟨0, 1/2⟩], ⟨7⟩⟩) = none ∧
    (∃ e, RerankRequest.new "" ["d"] RerankModel.rerank2 none = Except.error e) := by
  have h := rerank_validation_failfast "" ["d"] (Or.inl rfl)
  exact ⟨h.1 _, h.2.1 _, h.2.2.1 RerankModel.rerank2 none⟩

/-- C4: for `most_similar_document`, a successful transport call with a
non-empty ranked list resolves the future with that list's first item
(rank 0, the server's relevance score, the original document at the
server-returned index); an empty ranked list resolves it with the
"No matching documents found" error; a transport error propagates directly
to the awaiting caller. -/
theorem most_similar_top1 (query : String) (docs : List String)
    (hq : query ≠ "") (hd : docs ≠ []) :
    (∀ (resp : RerankResponse) (best : RerankResult) (rest : List RerankResult),
        resp.data = best :: rest → ∀ doc, docs.get? best.index = some doc →
        mostSimilarDocument query docs (Except.ok resp) =
          some (Except.ok ⟨0, best.relevance_score, doc⟩)) ∧
    (∀ resp : RerankResponse, resp.data = [] →
        mostSimilarDocument query docs (Except.ok resp) =
          some (Except.error (VoyageError.Other "No matching documents found"))) ∧
    (∀ e, mostSimilarDocument query docs (Except.error e) =
        some (Except.error e)) := by
  have hreq := createRequest_valid query docs hq hd
  refine ⟨?_, ?_, ?_⟩
  · intro resp best rest hdata doc hdoc
    rw [List.get?_eq_getElem?] at hdoc
    simp [mostSimilarDocument, hreq, mostSimilarTask, hdata, hdoc, asyncSimilarityPoll]
  · intro resp hdata
    simp [mostSimilarDocument, hreq, mostSimilarTask, hdata, asyncSimilarityPoll]
  · intro e
    simp [mostSimilarDocument, hreq, mostSimilarTask, asyncSimilarityPoll]

/-- C4 witness: concrete instances of the three branches. -/
theorem most_similar_top1_witness :
    mostSimilarDocument "q" ["A", "B"] (Except.ok ⟨[⟨1, 3/4⟩], ⟨5⟩⟩) =
      some (Except.ok ⟨0, 3/4, "B"⟩) ∧
    mostSimilarDocument "q" ["A", "B"] (Except.ok ⟨[], ⟨5⟩⟩) =
      some (Except.error (VoyageError.Other "No matching documents found")) ∧
    mostSimilarDocument "q" ["A", "B"] (Except.error VoyageError.Unauthorized) =
      some (Except.error VoyageError.Unauthorized) := by
  have h := most_similar_top1 "q" ["A", "B"] (by decide) (by decide)
  exact ⟨h.1 ⟨[⟨1, 3/4⟩], ⟨5⟩⟩ ⟨1, 3/4⟩ [] rfl "B" rfl,
         h.2.1 ⟨[], ⟨5⟩⟩ rfl, h.2.2 VoyageError.Unauthorized⟩

/-- C8: the server-returned index is used unchecked: if a successful
response contains a result whose index is out of bounds, the streaming
task panics — strictly fewer items than results are emitted and the stream
ends; and when the first ranked result's index is out of bounds,
`most_similar_document` resolves to the "Similarity task canceled" error
instead of a value. -/
theorem rerank_oob_panic (query : String) (docs : List String)
    (hq : query ≠ "") (hd : docs ≠ []) (resp : RerankResponse) :
    ((∃ r ∈ resp.data, docs.length ≤ r.index) →
      ∃ emitted, findSimilarDocuments query docs (Except.ok resp) = some (emitted, true) ∧
        emitted.length < resp.data.length) ∧
    (∀ best rest, resp.data = best :: rest → docs.length ≤ best.index →
      mostSimilarDocument query docs (Except.ok resp) =
        some (Except.error (VoyageError.Other "Similarity task canceled"))) := by
  have hreq := createRequest_valid query docs hq hd
  constructor
  · intro hoob
    have h2 := emitRanked_oob docs resp.data 0 hoob
    refine ⟨(emitRanked docs resp.data 0).1, ?_, h2.2⟩
    rw [findSimilarDocuments, hreq]
    show some (emitRanked docs resp.data 0) = some ((emitRanked docs resp.data 0).1, true)
    exact congrArg some (Prod.ext_iff.mpr ⟨rfl, h2.1⟩)
  · intro best rest hdata hge
    have hnone : docs[best.index]? = none := getElem?_of_ge docs best.index (by omega)
    simp [mostSimilarDocument, hreq, mostSimilarTask, hdata, hnone, asyncSimilarityPoll]

/-- C8 witness: one document, server index 5: the stream panics after
emitting nothing and the top-1 future resolves to the task-canceled
error. -/
theorem rerank_oob_panic_witness :
    mostSimilarDocument "q" ["A"] (Except.ok ⟨[⟨5, 1/2⟩], ⟨3⟩⟩) =
      some (Except.error (VoyageError.Other "Similarity task canceled")) := by
  exact (rerank_oob_panic "q" ["A"] (by decide) (by decide)
    ⟨[⟨5, 1/2⟩], ⟨3⟩⟩).2 ⟨5, 1/2⟩ [] rfl (by decide)

/-- C3 counterexample: the `Embedder` impl of `embed_batch` on
`VoyageAiClient` (`traits/llm.rs`) has no empty-input check: called with the
empty list it consults the rate limiter and issues the transport call, and
for an OK response with empty data it even resolves to `[[0.0]]` rather
than the empty result list. -/
theorem embed_batch_empty_counterexample :
    (Embedder.embed_batch []
      (Except.ok ⟨"list", [], "voyage-3-large", ⟨0⟩⟩)).transportInvoked = true ∧
    (Embedder.embed_batch []
      (Except.ok ⟨"list", [], "voyage-3-large", ⟨0⟩⟩)).rateChecked = true ∧
    (Embedder.embed_batch []
      (Except.ok ⟨"list", [], "voyage-3-large", ⟨0⟩⟩)).result = Except.ok [[0]] := by
  exact ⟨rfl, rfl, rfl⟩

/-- C3 (amended): `Client::embed_batch` short-circuits an empty input to the
empty result without consulting the rate limiter or the transport, and for
non-empty input makes one multi-input call returning the response's vectors
in response order; but the `Embedder` impl of `embed_batch` on
`VoyageAiClient` does not short-circuit — it checks the rate limit and
issues the transport call even for the empty input list. -/
theorem embed_batch_short_circuit (texts : List String)
    (tr : Except VoyageError EmbeddingsResponse) :
    Client.embed_batch [] tr = ⟨false, false, Except.ok []⟩ ∧
    (texts ≠ [] →
      (Client.embed_batch texts tr).rateChecked = true ∧
      (Client.embed_batch texts tr).transportInvoked = true ∧
      ∀ resp, tr = Except.ok resp → resp.data ≠ [] →
        (Client.embed_batch texts tr).result =
          Except.ok (resp.data.map (fun d => d.embedding))) ∧
    (Embedder.embed_batch texts tr).transportInvoked = true ∧
    (Embedder.embed_batch texts tr).rateChecked = true := by
  refine ⟨rfl, ?_, rfl, rfl⟩
  intro ht
  refine ⟨by simp [Client.embed_batch, ht, createEmbedding],
          by simp [Client.embed_batch, ht, createEmbedding], ?_⟩
  intro resp htr hdata
  subst htr
  simp [Client.embed_batch, ht, createEmbedding, substituteEmpty, hdata]

/-- C3 witness: a two-text batch issues the call and returns the two
response vectors in order. -/
theorem embed_batch_short_circuit_witness :
    (Client.embed_batch ["a", "b"]
      (Except.ok ⟨"list", [⟨"embedding", [1, 2], 0⟩, ⟨"embedding", [3], 1⟩], "m", ⟨9⟩⟩)).result =
      Except.ok [[1, 2], [3]] := by
  have h := embed_batch_short_circuit ["a", "b"]
    (Except.ok ⟨"list", [⟨"embedding", [1, 2], 0⟩, ⟨"embedding", [3], 1⟩], "m", ⟨9⟩⟩)
  exact (h.2.1 (by simp)).2.2 _ rfl (by simp)

/-- C5 counterexample: a positive wait of half a second (`as_secs() == 0`)
is returned by the limiter check, yet neither `perform_rerank` nor
`create_embedding` sleeps at all before issuing the transport call. -/
theorem rate_limit_sleep_counterexample :
    (⟨0, 500000000⟩ : Duration) ≠ Duration.zero ∧
    performRerankSleep ⟨0, 500000000⟩ = Duration.zero ∧
    createEmbeddingSleep ⟨0, 500000000⟩ = Duration.zero := by
  refine ⟨by decide, rfl, rfl⟩

/-- C5 (amended): before issuing the transport call the caller sleeps the
full returned wait duration only when the wait is at least one whole second
(`wait_time.as_secs() > 0`); a positive wait shorter than one second is not
slept at all. -/
theorem rate_limit_sleep (wait : Duration) :
    (0 < wait.secs →
      performRerankSleep wait = wait ∧ createEmbeddingSleep wait = wait) ∧
    (wait.secs = 0 →
      performRerankSleep wait = Duration.zero ∧
      createEmbeddingSleep wait = Duration.zero) := by
  constructor
  · intro h
    simp [performRerankSleep, createEmbeddingSleep, h]
  · intro h
    simp [performRerankSleep, createEmbeddingSleep, h]

/-- C5 witness: a two-second wait is slept in full; a zero wait is not. -/
theorem rate_limit_sleep_witness :
    performRerankSleep ⟨2, 0⟩ = ⟨2, 0⟩ ∧ createEmbeddingSleep ⟨2, 0⟩ = ⟨2, 0⟩ ∧
    performRerankSleep ⟨0, 0⟩ = Duration.zero := by
  exact ⟨((rate_limit_sleep ⟨2, 0⟩).1 (by decide)).1,
         ((rate_limit_sleep ⟨2, 0⟩).1 (by decide)).2,
         ((rate_limit_sleep ⟨0, 0⟩).2 rfl).1⟩

/-- C6: when the transport/API call fails, the rerank stream and the
embedding stream push no items and end empty without panicking; the error
value never appears on the stream (the item types carry no error case). -/
theorem stream_error_silent (query : String) (docs texts : List String)
    (hq : query ≠ "") (hd : docs ≠ []) (ht : texts ≠ []) (e : VoyageError) :
    findSimilarDocuments query docs (Except.error e) = some ([], false) ∧
    Embedder.embed_stream texts (Except.error e) = some (texts.length, []) := by
  have hreq := createRequest_valid query docs hq hd
  constructor
  · simp [findSimilarDocuments, hreq, findSimilarTask]
  · have hlen : texts.length ≠ 0 := fun hl => ht (List.length_eq_zero.mp hl)
    simp [Embedder.embed_stream, Embedder.mpscChannel, hlen, createEmbedding]

/-- C6 witness: a failed call yields empty streams on both pipelines. -/
theorem stream_error_silent_witness :
    findSimilarDocuments "q" ["A"]
        (Except.error (VoyageError.ApiError 500 "boom")) = some ([], false) ∧
    Embedder.embed_stream ["t"]
        (Except.error (VoyageError.ApiError 500 "boom")) = some (1, []) := by
  exact stream_error_silent "q" ["A"] ["t"] (by decide) (by decide) (by decide)
    (VoyageError.ApiError 500 "boom")

/-- C9: `embed_stream` creates its bounded channel with capacity
`texts.len()`; for the empty input list the tokio channel constructor's
positivity assertion fails and the call panics instead of returning an
empty stream, and for non-empty input the capacity equals the input
length. -/
theorem embed_stream_capacity (texts : List String)
    (tr : Except VoyageError EmbeddingsResponse) :
    Embedder.embed_stream [] tr = none ∧
    (texts ≠ [] → ∃ items, Embedder.embed_stream texts tr = some (texts.length, items)) := by
  refine ⟨rfl, ?_⟩
  intro ht
  have hlen : texts.length ≠ 0 := fun hl => ht (List.length_eq_zero.mp hl)
  refine ⟨match (createEmbedding tr).result with
          | Except.ok resp => resp.data.map (fun d => d.embedding)
          | Except.error _ => [], ?_⟩
  simp [Embedder.embed_stream, Embedder.mpscChannel, hlen]

/-- C9 witness: the empty input panics; a singleton input gets capacity 1. -/
theorem embed_stream_capacity_witness :
    Embedder.embed_stream [] (Except.error VoyageError.Unauthorized) = none ∧
    ∃ items, Embedder.embed_stream ["t"] (Except.error VoyageError.Unauthorized) =
      some (1, items) := by
  exact ⟨(embed_stream_capacity [] (Except.error VoyageError.Unauthorized)).1,
         (embed_stream_capacity ["t"] (Except.error VoyageError.Unauthorized)).2 (by decide)⟩

/-- C10: an OK embeddings response with an empty data list is replaced in
`create_embedding` by a response holding exactly one embedding `[0.0]` at
index 0 (other fields kept); consequently `embed` returns `[0.0]` instead
of failing or panicking, and non-empty `embed_batch` resolves to
`[[0.0]]`. -/
theorem empty_success_substitution (resp : EmbeddingsResponse)
    (h : resp.data = []) :
    createEmbedding (Except.ok resp) =
      ⟨true, true, Except.ok ⟨resp.object, [⟨"embedding", [0], 0⟩], resp.model, resp.usage⟩⟩ ∧
    Client.embed (Except.ok resp) = some (Except.ok [0]) ∧
    (∀ texts : List String, texts ≠ [] →
      (Client.embed_batch texts (Except.ok resp)).result = Except.ok [[0]]) := by
  have hs : substituteEmpty resp =
      ⟨resp.object, [⟨"embedding", [0], 0⟩], resp.model, resp.usage⟩ := by
    simp [substituteEmpty, h]
  refine ⟨by simp [createEmbedding, hs],
          by simp [Client.embed, createEmbedding, hs], ?_⟩
  intro texts ht
  simp [Client.embed_batch, ht, createEmbedding, hs]

/-- C10 witness: a concrete OK empty-data response yields `[0.0]` from
`embed` and `[[0.0]]` from a singleton `embed_batch`. -/
theorem empty_success_substitution_witness :
    Client.embed (Except.ok ⟨"list", [], "m", ⟨0⟩⟩) = some (Except.ok [0]) ∧
    (Client.embed_batch ["t"] (Except.ok ⟨"list", [], "m", ⟨0⟩⟩)).result =
      Except.ok [[0]] := by
  have h := empty_success_substitution ⟨"list", [], "m", ⟨0⟩⟩ rfl
  exact ⟨h.2.1, h.2.2 ["t"] (by simp)⟩

theorem dotProduct_nil_left (b : List ℝ) : dotProduct [] b = 0 := by
  simp [dotProduct]

theorem dotProduct_nil_right (a : List ℝ) : dotProduct a [] = 0 := by
  simp [dotProduct]

theorem dotProduct_cons (x y : ℝ) (xs ys : List ℝ) :
    dotProduct (x :: xs) (y :: ys) = x * y + dotProduct xs ys := by
  simp [dotProduct]

theorem dotProduct_comm (a b : List ℝ) : dotProduct a b = dotProduct b a := by
  induction a generalizing b with
  | nil => rw [dotProduct_nil_left, dotProduct_nil_right]
  | cons x xs ih =>
    cases b with
    | nil => rw [dotProduct_nil_left, dotProduct_nil_right]
    | cons y ys => rw [dotProduct_cons, dotProduct_cons, mul_comm x y, ih ys]

theorem dotProduct_self (a : List ℝ) :
    dotProduct a a = (a.map (fun x => x * x)).sum := by
  induction a with
  | nil => simp [dotProduct]
  | cons x xs ih => rw [dotProduct_cons, List.map_cons, List.sum_cons, ih]

theorem sumSq_nonneg (a : List ℝ) : 0 ≤ (a.map (fun x => x * x)).sum := by
  apply List.sum_nonneg
  intro y hy
  rcases List.mem_map.mp hy with ⟨x, _, rfl⟩
  exact mul_self_nonneg x

theorem sumSq_pos (a : List ℝ) (x : ℝ) (hx : x ∈ a) (hx0 : x ≠ 0) :
    0 < (a.map (fun y => y * y)).sum := by
  induction a with
  | nil => simp at hx
  | cons y ys ih =>
    rw [List.map_cons, List.sum_cons]
    rcases List.mem_cons.mp hx with rfl | hmem
    · have h1 : 0 < x * x := mul_self_pos.mpr hx0
      have h2 := sumSq_nonneg ys
      linarith
    · have h1 := ih hmem
      have h2 : 0 ≤ y * y := mul_self_nonneg y
      linarith

/-- C7: `cosine_similarity` is symmetric, returns 0 whenever either input
is empty or the lengths differ, returns 0 whenever either magnitude is
zero, and returns 1 on any vector with a nonzero coordinate compared with
itself (the `f32` arithmetic of `lib.rs` is modelled over the reals). -/
theorem cosine_props :
    (∀ a b : List ℝ, cosine_similarity a b = cosine_similarity b a) ∧
    (∀ a b : List ℝ, (a = [] ∨ b = [] ∨ a.length ≠ b.length) →
      cosine_similarity a b = 0) ∧
    (∀ a b : List ℝ, (magnitude a = 0 ∨ magnitude b = 0) →
      cosine_similarity a b = 0) ∧
    (∀ a : List ℝ, (∃ x ∈ a, x ≠ 0) → cosine_similarity a a = 1) := by
  refine ⟨?_, ?_, ?_, ?_⟩
  · intro a b
    unfold cosine_similarity
    by_cases h1 : a = [] ∨ b = [] ∨ a.length ≠ b.length
    · have h2 : b = [] ∨ a = [] ∨ b.length ≠ a.length := by
        rcases h1 with h | h | h
        · exact Or.inr (Or.inl h)
        · exact Or.inl h
        · exact Or.inr (Or.inr (fun hh => h hh.symm))
      rw [if_pos h1, if_pos h2]
    · have h2 : ¬(b = [] ∨ a = [] ∨ b.length ≠ a.length) := by
        push_neg at h1 ⊢
        exact ⟨h1.2.1, h1.1, h1.2.2.symm⟩
      rw [if_neg h1, if_neg h2]
      by_cases h3 : magnitude a = 0 ∨ magnitude b = 0
      · rw [if_pos h3, if_pos (Or.symm h3)]
      · rw [if_neg h3, if_neg (fun h => h3 (Or.symm h)), dotProduct_comm,
          mul_comm (magnitude a) (magnitude b)]
  · intro a b h
    unfold cosine_similarity
    rw [if_pos h]
  · intro a b h
    unfold cosine_similarity
    by_cases h1 : a = [] ∨ b = [] ∨ a.length ≠ b.length
    · rw [if_pos h1]
    · rw [if_neg h1, if_pos h]
  · intro a ha
    obtain ⟨x, hx, hx0⟩ := ha
    have hane : a ≠ [] := by rintro rfl; simp at hx
    have hS : 0 < (a.map (fun y => y * y)).sum := sumSq_pos a x hx hx0
    have hmagpos : 0 < magnitude a := Real.sqrt_pos.mpr hS
    unfold cosine_similarity
    rw [if_neg (by push_neg; exact ⟨hane, hane, rfl⟩),
      if_neg (by push_neg; exact ⟨hmagpos.ne', hmagpos.ne'⟩),
      dotProduct_self]
    show (a.map (fun y => y * y)).sum /
      (Real.sqrt ((a.map (fun y => y * y)).sum) *
        Real.sqrt ((a.map (fun y => y * y)).sum)) = 1
    rw [Real.mul_self_sqrt hS.le, div_self hS.ne']

/-- C7 witness: concrete instances of symmetry, the empty,
mismatched-length and zero-magnitude zero cases, and self-similarity of a
nonzero vector. -/
theorem cosine_props_witness :
    cosine_similarity [1, 2] [3, 4] = cosine_similarity [3, 4] [1, 2] ∧
    cosine_similarity [] [1] = 0 ∧
    cosine_similarity [1] [1, 2] = 0 ∧
    cosine_similarity [0] [1] = 0 ∧
    cosine_similarity [1] [1] = 1 := by
  refine ⟨cosine_props.1 [1, 2] [3, 4], cosine_props.2.1 [] [1] (Or.inl rfl),
    cosine_props.2.1 [1] [1, 2] (Or.inr (Or.inr (by simp))),
    cosine_props.2.2.1 [0] [1] (Or.inl (by simp [magnitude])),
    cosine_props.2.2.2 [1] ⟨1, by simp, one_ne_zero⟩⟩

end VoyageAI
